import Mathlib

/-!
Verification of the grpc-rest multiplexer (`src/lib.rs`).

The development shallowly embeds the routing/dispatch core:
  * `MultiplexService` with its two readiness flags (`rest_ready`, `grpc_ready`),
  * the content sniffer `is_grpc_request` (including the panic that the
    `String::from_utf8(..).unwrap()` in its logging step raises on
    non-UTF8 header bytes),
  * the `tower::Service` methods `poll_ready` and `call`,
  * the CORS origin predicate and allowed-method lists of
    `xai_rest_layer` / `xai_grpc_layer`.

Requests are represented by the datum the core actually inspects: the raw
byte value of the optional `content-type` header (a `List Nat` of bytes).
Asynchronous results (`Poll`, futures) are represented by their outcomes.
-/

namespace GrpcRestMux

/-- Byte list of an ASCII string literal, used to write the byte literals
(`b"application/grpc"` etc.) of the source; every literal in the source is
ASCII, where the UTF-8 bytes are exactly the characters' code points. -/
def strBytes (s : String) : List Nat :=
  s.data.map (fun c => c.toNat)

/-- A UTF-8 continuation byte (`0x80 ..= 0xBF`). -/
def utf8Cont (b : Nat) : Bool := 128 ≤ b && b ≤ 191

/-- Validity of a byte sequence as UTF-8, exactly the byte-range table that
Rust's `String::from_utf8` checks (no surrogates, no overlong forms). -/
def utf8Valid : List Nat → Bool
  | [] => true
  | b :: rest =>
    if b ≤ 127 then utf8Valid rest
    else if 194 ≤ b && b ≤ 223 then
      match rest with
      | c1 :: r => utf8Cont c1 && utf8Valid r
      | [] => false
    else if b = 224 then
      match rest with
      | c1 :: c2 :: r => (160 ≤ c1 && c1 ≤ 191) && utf8Cont c2 && utf8Valid r
      | _ => false
    else if 225 ≤ b && b ≤ 236 then
      match rest with
      | c1 :: c2 :: r => utf8Cont c1 && utf8Cont c2 && utf8Valid r
      | _ => false
    else if b = 237 then
      match rest with
      | c1 :: c2 :: r => (128 ≤ c1 && c1 ≤ 159) && utf8Cont c2 && utf8Valid r
      | _ => false
    else if 238 ≤ b && b ≤ 239 then
      match rest with
      | c1 :: c2 :: r => utf8Cont c1 && utf8Cont c2 && utf8Valid r
      | _ => false
    else if b = 240 then
      match rest with
      | c1 :: c2 :: c3 :: r =>
          (144 ≤ c1 && c1 ≤ 191) && utf8Cont c2 && utf8Cont c3 && utf8Valid r
      | _ => false
    else if 241 ≤ b && b ≤ 243 then
      match rest with
      | c1 :: c2 :: c3 :: r =>
          utf8Cont c1 && utf8Cont c2 && utf8Cont c3 && utf8Valid r
      | _ => false
    else if b = 244 then
      match rest with
      | c1 :: c2 :: c3 :: r =>
          (128 ≤ c1 && c1 ≤ 143) && utf8Cont c2 && utf8Cont c3 && utf8Valid r
      | _ => false
    else false

/-- The media-type byte literal `b"application/grpc"` of
`is_grpc_request` (src/lib.rs line 161). -/
def grpcMediaType : List Nat := strBytes "application/grpc"

/-- Content sniffer `is_grpc_request` (src/lib.rs lines 151-163).
The input is the raw byte value of the `content-type` header, `none` when
the header is absent.  The source first runs the logging step
`info!("{}", String::from_utf8(content_type.as_bytes().to_vec()).unwrap())`
inside `.map`, which panics when the bytes are not valid UTF-8; the panic
is modelled as `Except.error`.  Only then does `.filter` test
`starts_with(b"application/grpc")`; `.is_some()` yields the boolean. -/
def is_grpc_request (contentType : Option (List Nat)) : Except String Bool :=
  match contentType with
  | none => Except.ok false
  | some bytes =>
    if utf8Valid bytes then
      Except.ok (List.isPrefixOf grpcMediaType bytes)
    else
      Except.error "invalid utf-8 sequence"

/-- The dispatcher state (src/lib.rs lines 28-33): the two backend handles
and the two readiness flags. -/
structure MultiplexService (α β : Type) where
  rest : α
  rest_ready : Bool
  grpc : β
  grpc_ready : Bool
  deriving DecidableEq

/-- `MultiplexService::new` (src/lib.rs lines 36-43): both flags start false. -/
def MultiplexService.new (rest : α) (grpc : β) : MultiplexService α β :=
  { rest := rest, rest_ready := false, grpc := grpc, grpc_ready := false }

/-- `impl Clone for MultiplexService` (src/lib.rs lines 46-60): the handles
are duplicated, both readiness flags are reset to false. -/
def MultiplexService.clone (s : MultiplexService α β) : MultiplexService α β :=
  { rest := s.rest, grpc := s.grpc, rest_ready := false, grpc_ready := false }

/-- Which backend a dispatched request was routed to. -/
inductive Backend where
  | rpc
  | plain
  deriving DecidableEq

/-- The abnormal terminations `call` can take: the two `assert!` failures
(src/lib.rs lines 97-104) and the panic of the sniffer's logging unwrap. -/
inductive Panic where
  | assertFail (msg : String)
  | panicked (msg : String)
  deriving DecidableEq

/-- `MultiplexService::call` (src/lib.rs lines 94-126), up to the choice of
backend: first the two `assert!`s (grpc flag checked first, then rest), then
`is_grpc_request` classifies; the selected backend's flag is cleared and its
handle is the one called.  Returns the post-state and the routed backend, or
the panic that aborted the call. -/
def MultiplexService.call (s : MultiplexService α β) (contentType : Option (List Nat)) :
    Except Panic (MultiplexService α β × Backend) :=
  if s.grpc_ready = false then
    Except.error (Panic.assertFail "grpc service not ready. Did you forget to call poll_ready?")
  else if s.rest_ready = false then
    Except.error (Panic.assertFail "rest service not ready. Did you forget to call poll_ready?")
  else
    match is_grpc_request contentType with
    | Except.error msg => Except.error (Panic.panicked msg)
    | Except.ok true => Except.ok ({ s with grpc_ready := false }, Backend.rpc)
    | Except.ok false => Except.ok ({ s with rest_ready := false }, Backend.plain)

/-- Outcome of polling an inner service for readiness within one
`poll_ready` invocation: `Poll::Pending`, or `Poll::Ready(r)` with
`r : Result ((), ε)`. -/
inductive PollResult (ε : Type) where
  | pending
  | ready (r : Except ε Unit)

instance {ε α : Type} [DecidableEq ε] [DecidableEq α] : DecidableEq (Except ε α) :=
  fun x y =>
    match x, y with
    | Except.error a, Except.error b =>
        if h : a = b then isTrue (by rw [h]) else isFalse (by simp [h])
    | Except.ok a, Except.ok b =>
        if h : a = b then isTrue (by rw [h]) else isFalse (by simp [h])
    | Except.error _, Except.ok _ => isFalse (by simp)
    | Except.ok _, Except.error _ => isFalse (by simp)

instance {ε : Type} [DecidableEq ε] : DecidableEq (PollResult ε) :=
  fun x y =>
    match x, y with
    | PollResult.pending, PollResult.pending => isTrue rfl
    | PollResult.ready a, PollResult.ready b =>
        if h : a = b then isTrue (by rw [h])
        else isFalse (by intro hc; cases hc; exact h rfl)
    | PollResult.pending, PollResult.ready _ => isFalse (by intro hc; cases hc)
    | PollResult.ready _, PollResult.pending => isFalse (by intro hc; cases hc)

/-- Rust's `std::convert::Infallible`: the uninhabited error type of the
rest backend (`A : Service<.., Error = Infallible>`). -/
def Infallible : Type := Empty

/-- `MultiplexService::poll_ready` (src/lib.rs lines 75-92).  The loop
matches `(rest_ready, grpc_ready)`: `(true, true)` returns `Ok(())`;
`(false, _)` polls the rest service first (`ready!` suspends on `Pending`,
the error is eliminated by `map_err(|err| match err {})` since it is
`Infallible`), sets `rest_ready` and loops; `(_, false)` polls the grpc
service, `?` propagates its error, sets `grpc_ready` and loops.  Within one
invocation each inner service is polled at most once (after a successful
poll its flag is true and its arm is never re-entered), so the two oracle
arguments `restPoll`/`grpcPoll` give each backend's poll outcome.  The
result is the post-state and the returned `Poll`. -/
def MultiplexService.poll_ready (s : MultiplexService α β)
    (restPoll : PollResult Infallible) (grpcPoll : PollResult ε) :
    MultiplexService α β × PollResult ε :=
  if hr : s.rest_ready = false then
    match restPoll with
    | PollResult.pending => (s, PollResult.pending)
    | PollResult.ready (Except.error e) => e.elim
    | PollResult.ready (Except.ok _) =>
        MultiplexService.poll_ready { s with rest_ready := true } restPoll grpcPoll
  else if hg : s.grpc_ready = false then
    match grpcPoll with
    | PollResult.pending => (s, PollResult.pending)
    | PollResult.ready (Except.error e) => (s, PollResult.ready (Except.error e))
    | PollResult.ready (Except.ok _) =>
        MultiplexService.poll_ready { s with grpc_ready := true } restPoll grpcPoll
  else
    (s, PollResult.ready (Except.ok ()))
termination_by (if s.rest_ready then 0 else 1) + (if s.grpc_ready then 0 else 1)
decreasing_by
  · simp [hr]
  · simp [hg]

/-- The future built in the grpc branch of `call` (src/lib.rs lines 111-114):
`let res = future.await?; Ok(res.into_response())`.  The awaited backend
outcome is `fut`; an error is propagated verbatim by `?`, a success is
normalized by `IntoResponse` (the conversion `into_response`). -/
def grpcBranchAwait {ε β' ρ : Type} (fut : Except ε β') (into_response : β' → ρ) :
    Except ε ρ :=
  match fut with
  | Except.error e => Except.error e
  | Except.ok res => Except.ok (into_response res)

/-- The future built in the rest branch of `call` (src/lib.rs lines 118-124):
`future.await.map_err(|err| { error!(..); match err {} })?` followed by
`Ok(res.into_response())`.  The rest backend's error type is `Infallible`;
the `map_err` closure logs and then eliminates the error by the empty match,
so the branch can only produce a normalized success. -/
def restBranchAwait {α' ρ : Type} (ε : Type) (fut : Except Infallible α')
    (into_response : α' → ρ) : Except ε ρ :=
  match fut with
  | Except.error e => e.elim
  | Except.ok res => Except.ok (into_response res)

/-- HTTP methods (`http::Method`). -/
inductive Method where
  | GET
  | POST
  | PUT
  | DELETE
  | OPTIONS
  | HEAD
  | PATCH
  | CONNECT
  deriving DecidableEq

/-- The CORS data a layer is configured with: the `AllowOrigin::predicate`
on the raw bytes of the `origin` header value, and `allow_methods`. -/
structure CorsConfig where
  allow_origin : List Nat → Bool
  allow_methods : List Method

/-- `xai_rest_layer` (src/lib.rs lines 165-183): origin allowed when it is
empty, or its bytes end with `b"xambit.io"`, or its bytes start with
`b"http://localhost"`; methods POST, PUT, DELETE, GET, OPTIONS. -/
def xai_rest_layer : CorsConfig :=
  { allow_origin := fun origin =>
      origin.isEmpty || List.isSuffixOf (strBytes "xambit.io") origin
        || List.isPrefixOf (strBytes "http://localhost") origin
    allow_methods := [Method.POST, Method.PUT, Method.DELETE, Method.GET, Method.OPTIONS] }

/-- `xai_grpc_layer` (src/lib.rs lines 185-201): the same origin predicate
(written out again in the source), methods POST only.  The interceptor layer
it additionally stacks is irrelevant to the CORS policy. -/
def xai_grpc_layer : CorsConfig :=
  { allow_origin := fun origin =>
      origin.isEmpty || List.isSuffixOf (strBytes "xambit.io") origin
        || List.isPrefixOf (strBytes "http://localhost") origin
    allow_methods := [Method.POST] }

/-- A dispatcher whose backends are the trivial handles and whose two flags
are checked-and-ready: the state right after a successful `poll_ready`. -/
def readyUnitService : MultiplexService Unit Unit :=
  { rest := (), rest_ready := true, grpc := (), grpc_ready := true }

/-- A dispatcher whose grpc readiness has been consumed (the state right
after a grpc-routed `call` on `readyUnitService`). -/
def grpcConsumedService : MultiplexService Unit Unit :=
  { rest := (), rest_ready := true, grpc := (), grpc_ready := false }

/-- `call` on a service with a not-ready flag aborts at one of the two
`assert!`s (src/lib.rs lines 97-104), before the sniffer runs, whatever the
request is. -/
theorem call_assert_not_ready {α β : Type} (s : MultiplexService α β)
    (ct : Option (List Nat)) (h : s.rest_ready = false ∨ s.grpc_ready = false) :
    ∃ msg, s.call ct = Except.error (Panic.assertFail msg) := by
  by_cases hg : s.grpc_ready = false
  · exact ⟨"grpc service not ready. Did you forget to call poll_ready?",
      by simp [MultiplexService.call, hg]⟩
  · have hr : s.rest_ready = false := by
      rcases h with h | h
      · exact h
      · exact absurd h hg
    exact ⟨"rest service not ready. Did you forget to call poll_ready?",
      by simp [MultiplexService.call, hg, hr]⟩

/-- C1: the routing claim fails on the code.  The content-type value
`b"application/grpc"` followed by byte `0xFF` starts with the grpc media
type prefix, so the claim demands routing to the RPC backend; but `call`
on a fully ready dispatcher panics in the sniffer's logging unwrap
(`String::from_utf8(..).unwrap()`, src/lib.rs line 157) and routes the
request to neither backend. -/
theorem C1_nonUtf8_grpc_request_panics_instead_of_routing :
    List.isPrefixOf grpcMediaType (strBytes "application/grpc" ++ [255]) = true
    ∧ readyUnitService.call (some (strBytes "application/grpc" ++ [255]))
        = Except.error (Panic.panicked "invalid utf-8 sequence") := by
  decide

/-- C2: the no-panic claim fails on the code.  On the content-type value
`b"application/json"` followed by the lone lead byte `0xC3` (not valid
UTF-8), `is_grpc_request` does not classify: the logging step
`String::from_utf8(content_type.as_bytes().to_vec()).unwrap()`
(src/lib.rs line 157) panics instead of swallowing the decode error. -/
theorem C2_nonUtf8_content_type_panics_classifier :
    utf8Valid (strBytes "application/json" ++ [195]) = false
    ∧ is_grpc_request (some (strBytes "application/json" ++ [195]))
        = Except.error "invalid utf-8 sequence" := by
  decide

/-- C3: `call` on a dispatcher with either readiness flag not
checked-and-ready aborts with an `assert!` failure (a panic, not a value of
the recoverable error channel), for every request — hence for both backend
selections, since the asserts run before classification. -/
theorem C3_call_without_ready_assert_fails {α β : Type}
    (s : MultiplexService α β) (ct : Option (List Nat))
    (h : s.rest_ready = false ∨ s.grpc_ready = false) :
    ∃ msg, s.call ct = Except.error (Panic.assertFail msg) :=
  call_assert_not_ready s ct h

/-- C3 witness: a freshly constructed dispatcher rejects both a
grpc-typed and a json-typed request with the assertion panic. -/
theorem C3_call_without_ready_assert_fails_witness :
    (∃ msg, (MultiplexService.new () ()).call (some (strBytes "application/grpc"))
        = Except.error (Panic.assertFail msg))
    ∧ (∃ msg, (MultiplexService.new () ()).call (some (strBytes "application/json"))
        = Except.error (Panic.assertFail msg)) :=
  ⟨C3_call_without_ready_assert_fails (MultiplexService.new () ())
      (some (strBytes "application/grpc")) (Or.inl (by decide)),
    C3_call_without_ready_assert_fails (MultiplexService.new () ())
      (some (strBytes "application/json")) (Or.inl (by decide))⟩

/-- C7: duplicating any dispatcher yields both readiness flags not-checked,
whatever the original's flags were, so a dispatch on the duplicate without
its own fresh `poll_ready` aborts with the assertion panic. -/
theorem C7_clone_resets_readiness {α β : Type} (s : MultiplexService α β) :
    s.clone.rest_ready = false ∧ s.clone.grpc_ready = false
    ∧ ∀ ct, ∃ msg, s.clone.call ct = Except.error (Panic.assertFail msg) :=
  ⟨rfl, rfl, fun ct => call_assert_not_ready s.clone ct (Or.inl rfl)⟩

/-- C10: a dispatcher built by `new` starts with both readiness flags
not-checked, and any dispatch before the first successful `poll_ready`
aborts with the assertion panic. -/
theorem C10_new_starts_not_ready {α β : Type} (a : α) (b : β) :
    (MultiplexService.new a b).rest_ready = false
    ∧ (MultiplexService.new a b).grpc_ready = false
    ∧ ∀ ct, ∃ msg, (MultiplexService.new a b).call ct
        = Except.error (Panic.assertFail msg) :=
  ⟨rfl, rfl, fun ct => call_assert_not_ready (MultiplexService.new a b) ct (Or.inl rfl)⟩

/-- C8: the origin predicate of both layers accepts the empty origin,
`https://app.xambit.io` and `http://localhost:3000` and rejects
`https://evil.com`; the rest layer's allowed methods are exactly
GET, POST, PUT, DELETE, OPTIONS and the grpc layer's exactly POST. -/
theorem C8_cors_policy_eval :
    xai_rest_layer.allow_origin (strBytes "") = true
    ∧ xai_rest_layer.allow_origin (strBytes "https://app.xambit.io") = true
    ∧ xai_rest_layer.allow_origin (strBytes "http://localhost:3000") = true
    ∧ xai_rest_layer.allow_origin (strBytes "https://evil.com") = false
    ∧ xai_grpc_layer.allow_origin (strBytes "") = true
    ∧ xai_grpc_layer.allow_origin (strBytes "https://app.xambit.io") = true
    ∧ xai_grpc_layer.allow_origin (strBytes "http://localhost:3000") = true
    ∧ xai_grpc_layer.allow_origin (strBytes "https://evil.com") = false
    ∧ (∀ m, m ∈ xai_rest_layer.allow_methods ↔
        (m = Method.GET ∨ m = Method.POST ∨ m = Method.PUT
          ∨ m = Method.DELETE ∨ m = Method.OPTIONS))
    ∧ (∀ m, m ∈ xai_grpc_layer.allow_methods ↔ m = Method.POST) := by
  refine ⟨by decide, by decide, by decide, by decide, by decide, by decide,
    by decide, by decide, fun m => by cases m <;> decide, fun m => by cases m <;> decide⟩

/-- C9: every origin whose raw bytes end with `b"xambit.io"` is accepted by
the origin predicate of both layers — the check is a plain byte-suffix test
with no domain-label boundary. -/
theorem C9_origin_suffix_bytes_accepted (origin : List Nat)
    (h : List.isSuffixOf (strBytes "xambit.io") origin = true) :
    xai_rest_layer.allow_origin origin = true
    ∧ xai_grpc_layer.allow_origin origin = true := by
  constructor <;> simp [xai_rest_layer, xai_grpc_layer, h]

/-- C9 witness: the unrelated host `https://evilxambit.io` ends with the
trusted byte suffix and is accepted by both layers. -/
theorem C9_origin_suffix_bytes_accepted_witness :
    xai_rest_layer.allow_origin (strBytes "https://evilxambit.io") = true
    ∧ xai_grpc_layer.allow_origin (strBytes "https://evilxambit.io") = true :=
  C9_origin_suffix_bytes_accepted (strBytes "https://evilxambit.io") (by decide)

/-- C4: a `call` that returns (does not panic) on a dispatcher whose two
flags are checked-and-ready clears exactly the selected backend's flag and
leaves the other flag (and both handles) unchanged, and a second `call`
on the resulting state, with any request, aborts at an `assert!`. -/
theorem C4_call_consumes_exactly_one_flag {α β : Type}
    (s s' : MultiplexService α β) (ct : Option (List Nat)) (b : Backend)
    (hrest : s.rest_ready = true) (hgrpc : s.grpc_ready = true)
    (hcall : s.call ct = Except.ok (s', b)) :
    (b = Backend.rpc →
      s'.grpc_ready = false ∧ s'.rest_ready = true ∧ s'.rest = s.rest ∧ s'.grpc = s.grpc)
    ∧ (b = Backend.plain →
      s'.rest_ready = false ∧ s'.grpc_ready = true ∧ s'.rest = s.rest ∧ s'.grpc = s.grpc)
    ∧ (∀ ct2, ∃ msg, s'.call ct2 = Except.error (Panic.assertFail msg)) := by
  obtain ⟨ra, rr, ga, gg⟩ := s
  have hrr : rr = true := hrest
  have hgg : gg = true := hgrpc
  subst hrr
  subst hgg
  rcases hsn : is_grpc_request ct with msg | fl
  · simp [MultiplexService.call, hsn] at hcall
  · cases fl
    · simp only [MultiplexService.call, hsn] at hcall
      simp at hcall
      obtain ⟨h1, h2⟩ := hcall
      subst h1
      subst h2
      refine ⟨fun h => absurd h (by decide), fun _ => ⟨rfl, rfl, rfl, rfl⟩,
        fun ct2 => call_assert_not_ready _ ct2 (Or.inl rfl)⟩
    · simp only [MultiplexService.call, hsn] at hcall
      simp at hcall
      obtain ⟨h1, h2⟩ := hcall
      subst h1
      subst h2
      refine ⟨fun _ => ⟨rfl, rfl, rfl, rfl⟩, fun h => absurd h (by decide),
        fun ct2 => call_assert_not_ready _ ct2 (Or.inr rfl)⟩

/-- C4 witness: after `poll_ready` succeeds and a grpc-typed request is
dispatched, the grpc flag is cleared, the rest flag still reads ready, and
a second dispatch without a new `poll_ready` aborts at an `assert!`. -/
theorem C4_call_consumes_exactly_one_flag_witness :
    grpcConsumedService.grpc_ready = false ∧ grpcConsumedService.rest_ready = true
    ∧ ∃ msg, grpcConsumedService.call none = Except.error (Panic.assertFail msg) := by
  have h := C4_call_consumes_exactly_one_flag readyUnitService grpcConsumedService
    (some (strBytes "application/grpc")) Backend.rpc (by decide) (by decide) (by decide)
  exact ⟨(h.1 rfl).1, (h.1 rfl).2.1, h.2.2 none⟩

/-- C5: `poll_ready` returns `Ready(Ok(()))` exactly when both flags read
checked-and-ready at return; on each pass the rest (plain) backend is
checked before the grpc one, so a pending rest backend suspends the whole
call untouched (likewise a pending grpc backend once rest is ready); and a
flag only becomes true through that backend's successful readiness poll. -/
theorem C5_poll_ready_gate {α β ε : Type} (s : MultiplexService α β)
    (rp : PollResult Infallible) (gp : PollResult ε) :
    ((s.poll_ready rp gp).2 = PollResult.ready (Except.ok ()) ↔
      ((s.poll_ready rp gp).1.rest_ready = true ∧ (s.poll_ready rp gp).1.grpc_ready = true))
    ∧ (s.rest_ready = false → rp = PollResult.pending →
        s.poll_ready rp gp = (s, PollResult.pending))
    ∧ (s.rest_ready = true → s.grpc_ready = false → gp = PollResult.pending →
        s.poll_ready rp gp = (s, PollResult.pending))
    ∧ ((s.poll_ready rp gp).1.rest_ready = true →
        (s.rest_ready = true ∨ rp = PollResult.ready (Except.ok ())))
    ∧ ((s.poll_ready rp gp).1.grpc_ready = true →
        (s.grpc_ready = true ∨ gp = PollResult.ready (Except.ok ()))) := by
  obtain ⟨ra, rr, ga, gg⟩ := s
  rcases rp with _ | (e | u)
  · cases rr <;> cases gg <;> rcases gp with _ | (eg | ug) <;>
      simp [MultiplexService.poll_ready]
  · exact e.elim
  · cases rr <;> cases gg <;> rcases gp with _ | (eg | ug) <;>
      simp [MultiplexService.poll_ready]

/-- C5 witness: on a fresh dispatcher with the rest backend pending,
`poll_ready` suspends with the state unchanged, whatever the grpc poll
would say. -/
theorem C5_poll_ready_gate_witness :
    (MultiplexService.new () ()).poll_ready PollResult.pending
        (PollResult.ready (Except.ok ()) : PollResult Nat)
      = (MultiplexService.new () (), PollResult.pending) :=
  (C5_poll_ready_gate (MultiplexService.new () ()) PollResult.pending
      (PollResult.ready (Except.ok ()))).2.1 (by decide) rfl

/-- C6: the rest backend's error type `Infallible` is uninhabited, so its
future can only resolve to a success, which the rest branch normalizes;
a grpc backend error is propagated verbatim, both by the grpc branch of
`call` and by `poll_ready` when the grpc readiness poll fails. -/
theorem C6_error_channels :
    IsEmpty Infallible
    ∧ (∀ (α' ρ ε : Type) (into : α' → ρ) (v : α'),
        restBranchAwait ε (Except.ok v) into = Except.ok (into v))
    ∧ (∀ (α' : Type) (fut : Except Infallible α'), ∃ v, fut = Except.ok v)
    ∧ (∀ (β' ρ ε : Type) (into : β' → ρ) (e : ε),
        grpcBranchAwait (Except.error e) into = Except.error e)
    ∧ (∀ (α β ε : Type) (s : MultiplexService α β) (rp : PollResult Infallible) (e : ε),
        s.rest_ready = true → s.grpc_ready = false →
        s.poll_ready rp (PollResult.ready (Except.error e))
          = (s, PollResult.ready (Except.error e))) := by
  refine ⟨⟨fun e => e.elim⟩, fun _ _ _ _ _ => rfl,
    fun α' fut => ?_, fun _ _ _ _ _ => rfl,
    fun α β ε s rp e h1 h2 => ?_⟩
  · rcases fut with e | v
    · exact e.elim
    · exact ⟨v, rfl⟩
  · obtain ⟨ra, rr, ga, gg⟩ := s
    have hrr : rr = true := h1
    have hgg : gg = false := h2
    subst hrr
    subst hgg
    rcases rp with _ | (e2 | u)
    · simp [MultiplexService.poll_ready]
    · exact e2.elim
    · simp [MultiplexService.poll_ready]

/-- C6 witness: with the rest flag ready and the grpc flag not,
a failing grpc readiness poll is returned verbatim by `poll_ready`. -/
theorem C6_error_channels_witness :
    grpcConsumedService.poll_ready PollResult.pending
        (PollResult.ready (Except.error (7 : Nat)))
      = (grpcConsumedService, PollResult.ready (Except.error 7)) :=
  C6_error_channels.2.2.2.2 Unit Unit Nat grpcConsumedService PollResult.pending 7
    (by decide) (by decide)

end GrpcRestMux
